import Mathlib

/-!
Verification of the schedule parsing and rendering engine of the
kdb-parse-core repository (file `parse_twinc.py`).

The Python code is shallowly embedded: raw strings are processed as their
character lists, Python `str.split(sep)` (single-character separator) is
`pysplit`, Python exceptions (`ValueError` from `int` conversion or tuple
unpacking, `IndexError` from list indexing) are modelled with `Except PErr`,
and Python's negative-index list assignment is modelled by `pySet`.
-/

/-- `ValueError` (failed `int` conversion / unpacking) and `IndexError`
(out-of-range list index) raised by the Python code. -/
inductive PErr where
  | valueError
  | indexError
deriving DecidableEq, Repr

/-- Python `s.split(sep)` for a single-character separator `sep`:
always returns at least one piece; `"".split(sep) = [""]`. -/
def pysplit (sep : Char) : List Char → List (List Char)
  | [] => [[]]
  | c :: rest =>
    let r := pysplit sep rest
    if c = sep then [] :: r
    else
      match r with
      | [] => [[c]]
      | g :: gs => (c :: g) :: gs

/-- Python `s.find(pat) > -1`: `pat` occurs as a contiguous subsequence. -/
def containsSeq (pat : List Char) : List Char → Bool
  | [] => pat.isEmpty
  | c :: rest => pat.isPrefixOf (c :: rest) || containsSeq pat rest

/-- `WEEKDAY_LIST` from `parse_twinc.py`. -/
def WEEKDAY_LIST : List String := ["月", "火", "水", "木", "金", "土", "日"]

/-- `SEASONS` from `parse_twinc.py` (its two one-character strings, as chars). -/
def SEASONS : List Char := ['春', '秋']

/-- `MODULE_LIST` from `parse_twinc.py`. -/
def MODULE_LIST : List String :=
  ["春A", "春B", "春C", "秋A", "秋B", "秋C", "夏季休業中", "春季休業中"]

/-- `SPRING_MODULE_LIST` from `parse_twinc.py`. -/
def SPRING_MODULE_LIST : List String := ["春A", "春B", "春C"]

/-- `FALL_MODULE_LIST` from `parse_twinc.py`. -/
def FALL_MODULE_LIST : List String := ["秋A", "秋B", "秋C"]

/-- One character step of the scan in `raw_module_to_terms`: state is the
current season (`None` models Python's `season == ""`) and the ordinal list
built for the current group. -/
def termStep (st : Option Char × List Nat) (c : Char) : Option Char × List Nat :=
  let season := if c ∈ SEASONS then some c else st.1
  match season with
  | none => (none, st.2)
  | some s =>
    let group :=
      if c = 'A' ∨ c = 'B' ∨ c = 'C' then
        st.2 ++ [(if s = '春' then 0 else 3) +
                 (if c = 'A' then 0 else if c = 'B' then 1 else 2)]
      else st.2
    let group := if c = '休' then group ++ [SEASONS.findIdx (fun x => x = s) + 6]
                 else group
    (season, group)

/-- The group loop of `raw_module_to_terms`: the season state is threaded
from one group to the next (the Python code initializes `season` once,
before the loop over groups). -/
def termsAux : Option Char → List (List Char) → List (List Nat)
  | _, [] => []
  | season, g :: gs =>
    let st := g.foldl termStep (season, [])
    st.2 :: termsAux st.1 gs

/-- `raw_module_to_terms` from `parse_twinc.py`. -/
def raw_module_to_terms (raw : String) : List (List String) :=
  (termsAux none (pysplit ' ' raw.data)).map
    (fun nums => nums.map (fun x => MODULE_LIST.getD x ""))

/-- Python `"".join(...)`. -/
def joinStrs : List String → String
  | [] => ""
  | s :: rest => s ++ joinStrs rest

/-- The string built by `check_table` when the table has a true entry:
season symbol followed by the letters whose entries are true, in A,B,C order. -/
def seasonLetters (table : List Bool) : String :=
  joinStrs ((List.zip ["A", "B", "C"] table).filterMap
    (fun p => if p.2 then some p.1 else none))

/-- `check_table` from `parse_twinc.py`; `none` models the `ValueError`
raised when the table has no true entry. -/
def check_table (table : List Bool) (season : String) : Option String :=
  if table.any id then some (season ++ seasonLetters table) else none

/-- The per-group body of `parsed_module`: partition the group's symbols into
the spring table, the fall table and the special list, then rebuild. -/
def parsedGroup (v : List String) : List String :=
  let t := v.foldl
    (fun st w =>
      match SPRING_MODULE_LIST.findIdx? (fun x => x = w) with
      | some i => (st.1.set i true, st.2.1, st.2.2)
      | none =>
        match FALL_MODULE_LIST.findIdx? (fun x => x = w) with
        | some i => (st.1, st.2.1.set i true, st.2.2)
        | none => (st.1, st.2.1, st.2.2 ++ [w]))
    (([false, false, false] : List Bool), ([false, false, false] : List Bool),
      ([] : List String))
  (check_table t.1 "春").toList ++ (check_table t.2.1 "秋").toList ++ t.2.2

/-- `parsed_module` from `parse_twinc.py`. -/
def parsed_module (terms : List (List String)) : List (List String) :=
  terms.map parsedGroup

/-- The term-normalization pipeline of `subject_to_class_dict`:
`parsed_module(terms) if terms != [[]] else [["通年"]]`. -/
def normalized_terms (raw : String) : List (List String) :=
  let terms := raw_module_to_terms raw
  if terms = [[]] then [["通年"]] else parsed_module terms

/-- `create_timetable` from `parse_twinc.py`: the 7×8 all-false grid. -/
def create_timetable : List (List Bool) :=
  List.replicate 7 (List.replicate 8 false)

/-- The `PeriodTable` TypedDict of `parse_twinc.py`. -/
structure PeriodTable where
  period : List (List Bool)
  focus : Bool
  negotiable : Bool
  asneeded : Bool
deriving DecidableEq, Repr

/-- Python `int(s)` on a piece of the digit-and-hyphen residue (the piece
contains only ASCII digits): fails exactly on the empty piece. -/
def parseDigits (cs : List Char) : Option Nat :=
  if cs = [] then none
  else if cs.all Char.isDigit then
    some (cs.foldl (fun n c => n * 10 + (c.toNat - 48)) 0)
  else none

/-- Python `range(s, e + 1)` as a list. -/
def rangeList (s e : Nat) : List Nat := List.range' s (e + 1 - s)

/-- The weekday extraction of one span `p` in `subject_to_class_dict`:
strip digits and hyphens, split on the day separator, keep the indices of
the pieces that are weekday symbols, in order of appearance. -/
def spanDays (p : List Char) : List Nat :=
  (pysplit '・' (p.filter (fun c => ¬(c.isDigit || c = '-')))).filterMap
    (fun x => WEEKDAY_LIST.findIdx? (fun w => w.data = x))

/-- The digit-and-hyphen residue of one span (`re.sub("[^0-9\\-]", "", p)`). -/
def timeStr (p : List Char) : List Char :=
  p.filter (fun c => c.isDigit || c = '-')

/-- The period-number extraction of one span in `subject_to_class_dict`:
a hyphen residue is an inclusive range unpacked into exactly two integers,
a non-empty digit residue is a single integer, an empty residue yields the
sentinel `[0]`; `ValueError` models failed `int` conversion or unpacking. -/
def parseTimeArray (ts : List Char) : Except PErr (List Nat) :=
  if ts.contains '-' then
    match pysplit '-' ts with
    | [a, b] =>
      match parseDigits a, parseDigits b with
      | some s, some e => .ok (rangeList s e)
      | _, _ => .error .valueError
    | _ => .error .valueError
  else if ts = [] then .ok [0]
  else
    match parseDigits ts with
    | some n => .ok [n]
    | none => .error .valueError

/-- Python list assignment `row[idx] = True` with Python index semantics:
a negative index counts from the end, an index out of range raises
`IndexError`. -/
def pySet (row : List Bool) (idx : Int) : Except PErr (List Bool) :=
  let i : Int := if idx < 0 then idx + row.length else idx
  if 0 ≤ i ∧ i < (row.length : Int) then .ok (row.set i.toNat true)
  else .error .indexError

/-- `boolean_periods[i]["period"][day][time - 1] = True` on the grid. -/
def setCell (grid : List (List Bool)) (day : Nat) (idx : Int) :
    Except PErr (List (List Bool)) :=
  match pySet (grid.getD day []) idx with
  | .error e => .error e
  | .ok row => .ok (grid.set day row)

/-- The nested marking loops `for day in day_array: for time in time_array`. -/
def markCells (grid : List (List Bool)) (days : List Nat) (times : List Nat) :
    Except PErr (List (List Bool)) :=
  days.foldlM (fun g day =>
    times.foldlM (fun g2 t => setCell g2 day ((t : Int) - 1)) g) grid

/-- One comma-separated span of a period clause in `subject_to_class_dict`:
the state is the carried day set and the grid. -/
def spanStep (st : List Nat × List (List Bool)) (p : List Char) :
    Except PErr (List Nat × List (List Bool)) :=
  let days := spanDays p
  let dayArray := if days.length > 0 then days else st.1
  let ts := timeStr p
  match parseTimeArray ts with
  | .error e => .error e
  | .ok timeArray =>
    if ts.length > 0 then
      match markCells st.2 dayArray timeArray with
      | .error e => .error e
      | .ok grid => .ok (dayArray, grid)
    else .ok (dayArray, st.2)

/-- One space-separated period clause of `subject_to_class_dict`: flags come
from substring search on the whole clause, the day set starts empty, the
grid starts all-false, and the spans are folded left to right. -/
def parseClauseChars (term : List Char) : Except PErr PeriodTable :=
  match (pysplit ',' term).foldlM spanStep ([], create_timetable) with
  | .error e => .error e
  | .ok st =>
    .ok { period := st.2,
          focus := containsSeq "集中".data term,
          negotiable := containsSeq "応談".data term,
          asneeded := containsSeq "随時".data term }

/-- One clause, from its raw string. -/
def parse_period_clause (term : String) : Except PErr PeriodTable :=
  parseClauseChars term.data

/-- The whole period field of one course: one table per space-separated
clause; the first exception aborts the course's conversion. -/
def parse_periods (raw : String) : Except PErr (List PeriodTable) :=
  (pysplit ' ' raw.data).mapM parseClauseChars

/-- `parse_timetable` from `parse_twinc.py`. -/
def parse_timetable (t : PeriodTable) : List String :=
  if t.period = create_timetable then
    if t.focus then ["集中"]
    else if t.negotiable then ["応談"]
    else ["随時"]
  else
    (List.range 7).flatMap (fun i =>
      (List.range 8).filterMap (fun j =>
        if (t.period.getD i []).getD j false then
          some (WEEKDAY_LIST.getD i "" ++ toString (j + 1))
        else none))

/-! ## Helper lemmas -/

theorem termStep_no_season (c : Char) (hc : c ∉ SEASONS) (g : List Nat) :
    termStep (none, g) c = (none, g) := by
  simp [termStep, hc]

theorem foldl_termStep_no_season (cs : List Char)
    (hcs : ∀ c ∈ cs, c ∉ SEASONS) :
    ∀ g : List Nat, cs.foldl termStep (none, g) = (none, g) := by
  induction cs with
  | nil => intro g; rfl
  | cons c rest ih =>
    intro g
    rw [List.foldl_cons, termStep_no_season c (hcs c (by simp)) g]
    exact ih (fun x hx => hcs x (by simp [hx])) g

theorem termsAux_no_season (gs : List (List Char))
    (h : ∀ g ∈ gs, ∀ c ∈ g, c ∉ SEASONS) :
    ∀ x ∈ termsAux none gs, x = [] := by
  induction gs with
  | nil => intro x hx; simp [termsAux] at hx
  | cons g rest ih =>
    intro x hx
    have hg := foldl_termStep_no_season g (h g (by simp)) []
    have hstep : termsAux none (g :: rest) = [] :: termsAux none rest := by
      simp [termsAux, hg]
    rw [hstep, List.mem_cons] at hx
    rcases hx with rfl | hx
    · rfl
    · exact ih (fun p hp c hc => h p (by simp [hp]) c hc) x hx

theorem pysplit_ne_nil (sep : Char) (s : List Char) : pysplit sep s ≠ [] := by
  cases s with
  | nil => simp [pysplit]
  | cons a rest =>
    simp only [pysplit]
    split
    · simp
    · split
      · simp
      · simp

theorem pysplit_sub (sep : Char) (s : List Char) :
    ∀ g ∈ pysplit sep s, ∀ c ∈ g, c ∈ s := by
  induction s with
  | nil =>
    intro g hg c hc
    simp [pysplit] at hg
    subst hg
    simp at hc
  | cons a rest ih =>
    intro g hg c hc
    simp only [pysplit] at hg
    by_cases ha : a = sep
    · rw [if_pos ha, List.mem_cons] at hg
      rcases hg with rfl | hg
      · simp at hc
      · exact List.mem_cons_of_mem a (ih g hg c hc)
    · rw [if_neg ha] at hg
      cases hps : pysplit sep rest with
      | nil => exact absurd hps (pysplit_ne_nil sep rest)
      | cons p ps =>
        rw [hps, List.mem_cons] at hg
        rcases hg with rfl | hg
        · rw [List.mem_cons] at hc
          rcases hc with rfl | hc
          · exact List.mem_cons_self c rest
          · exact List.mem_cons_of_mem a
              (ih p (by rw [hps]; exact List.mem_cons_self p ps) c hc)
        · exact List.mem_cons_of_mem a
            (ih g (by rw [hps]; exact List.mem_cons_of_mem p hg) c hc)

/-! ## Claims -/

/-- C1: scanning the vacation marker '休' while a season is active appends
the ordinal `season index + 6`: Spring (index 0) yields ordinal 6, the
Summer-break symbol "夏季休業中", and Fall (index 1) yields ordinal 7, the
Spring-break symbol "春季休業中". -/
theorem c1_vacation_slot_mapping :
    (∀ g : List Nat,
      termStep (some '春', g) '休' = (some '春', g ++ [6])
      ∧ termStep (some '秋', g) '休' = (some '秋', g ++ [7]))
    ∧ MODULE_LIST.getD 6 "" = "夏季休業中"
    ∧ MODULE_LIST.getD 7 "" = "春季休業中"
    ∧ raw_module_to_terms "春休" = [["夏季休業中"]]
    ∧ raw_module_to_terms "秋休" = [["春季休業中"]] :=
  ⟨fun g => ⟨rfl, rfl⟩, by decide, by decide, by decide, by decide⟩

/-- C2 counterexample: the raw term string " " (a single space) consists
only of whitespace, yet it normalizes to two empty groups, not to the
year-round sentinel. -/
theorem c2_counterexample :
    normalized_terms " " = [[], []] ∧ normalized_terms " " ≠ [["通年"]] := by
  decide

theorem pysplit_replicate_space (n : Nat) :
    pysplit ' ' (List.replicate n ' ') = List.replicate (n + 1) [] := by
  induction n with
  | zero => rfl
  | succ m ih =>
    show [] :: pysplit ' ' (List.replicate m ' ') = [] :: List.replicate (m + 1) []
    rw [ih]

theorem termsAux_replicate_nil (season : Option Char) (m : Nat) :
    termsAux season (List.replicate m []) = List.replicate m [] := by
  induction m with
  | zero => rfl
  | succ k ih =>
    show [] :: termsAux season (List.replicate k []) = [] :: List.replicate k []
    rw [ih]

theorem raw_module_to_terms_spaces (n : Nat) (raw : String)
    (hdata : raw.data = List.replicate n ' ') :
    raw_module_to_terms raw = List.replicate (n + 1) [] := by
  rw [raw_module_to_terms, hdata, pysplit_replicate_space,
    termsAux_replicate_nil, List.map_replicate]
  rfl

/-- C2 (amended): only the empty raw term string, which splits into exactly
one empty group, normalizes to the single year-round sentinel `[["通年"]]`;
for every n ≥ 1, a whitespace-only string with n spaces splits into n + 1
empty groups and normalizes to that list of empty groups, never to the
sentinel. -/
theorem c2_year_round_sentinel :
    normalized_terms "" = [["通年"]]
    ∧ ∀ (n : Nat) (raw : String), 1 ≤ n → raw.data = List.replicate n ' ' →
        raw_module_to_terms raw = List.replicate (n + 1) []
        ∧ normalized_terms raw = List.replicate (n + 1) ([] : List String)
        ∧ normalized_terms raw ≠ [["通年"]] := by
  refine ⟨by decide, fun n raw hn hdata => ?_⟩
  have hterms := raw_module_to_terms_spaces n raw hdata
  have hne : raw_module_to_terms raw ≠ [[]] := by
    rw [hterms]
    intro hcontra
    have hlen := congrArg List.length hcontra
    simp only [List.length_replicate, List.length_cons, List.length_nil] at hlen
    omega
  have hnorm : normalized_terms raw = List.replicate (n + 1) ([] : List String) := by
    simp only [normalized_terms, if_neg hne]
    rw [parsed_module, hterms, List.map_replicate]
    rfl
  refine ⟨hterms, hnorm, ?_⟩
  rw [hnorm]
  intro hcontra
  have hlen := congrArg List.length hcontra
  simp only [List.length_replicate, List.length_cons, List.length_nil] at hlen
  omega

/-- C2 witness: the single-space string has one space, splits into two empty
groups and does not normalize to the sentinel. -/
theorem c2_year_round_sentinel_witness :
    ((1 : Nat) ≤ 1 ∧ " ".data = List.replicate 1 ' ')
    ∧ raw_module_to_terms " " = List.replicate 2 []
    ∧ normalized_terms " " = List.replicate 2 ([] : List String)
    ∧ normalized_terms " " ≠ [["通年"]] :=
  ⟨⟨by decide, by decide⟩,
    c2_year_round_sentinel.2 1 " " (by decide) (by decide)⟩

/-- C3 counterexample: in "春A B" the second group "B" contains no season
symbol, yet the season carried over from the first group makes it produce
the module-slot symbol "春B". -/
theorem c3_counterexample :
    raw_module_to_terms "春A B" = [["春A"], ["春B"]]
    ∧ (raw_module_to_terms "春A B").getD 1 [] ≠ [] := by
  decide

/-- C3 (amended): the current-season state starts unset at the beginning of
the raw term string and persists across space-separated groups (it is not
reset per group): a sub-term letter or vacation marker produces a
module-slot symbol only when some season symbol precedes it somewhere in
the string, so a string with no season symbol produces only empty groups,
while a season symbol in an earlier group does scope over later groups. -/
theorem c3_season_scope :
    (∀ raw : String, (∀ c ∈ raw.data, c ∉ SEASONS) →
        ∀ g ∈ raw_module_to_terms raw, g = [])
    ∧ raw_module_to_terms "秋A B休" = [["秋A"], ["秋B", "春季休業中"]] := by
  constructor
  · intro raw hraw g hg
    simp only [raw_module_to_terms, List.mem_map] at hg
    obtain ⟨nums, hnums, rfl⟩ := hg
    have hn : nums = [] :=
      termsAux_no_season _
        (fun p hp c hc => hraw c (pysplit_sub ' ' raw.data p hp c hc))
        nums hnums
    simp [hn]
  · decide

/-- C3 witness: the season-free string "AB休C" produces only empty groups. -/
theorem c3_season_scope_witness :
    (∀ c ∈ "AB休C".data, c ∉ SEASONS)
    ∧ ∀ g ∈ raw_module_to_terms "AB休C", g = [] :=
  ⟨by decide, c3_season_scope.1 "AB休C" (by decide)⟩

/-- C4: `check_table` fails (returns `none`, modelling the `ValueError`)
exactly when its length-3 table is all-false; when at least one entry is
true it returns the season symbol followed by the letters whose entries are
true, in the fixed order A, B, C; in particular `[true, false, true]` with
Fall renders to "秋AC". -/
theorem c4_check_table :
    ∀ (a b c : Bool) (s : String),
      (check_table [a, b, c] s = none ↔ a = false ∧ b = false ∧ c = false)
      ∧ ((a = true ∨ b = true ∨ c = true) →
          check_table [a, b, c] s =
            some (s ++ ((if a then "A" else "") ++ (if b then "B" else "") ++
              (if c then "C" else ""))))
      ∧ check_table [true, false, true] "秋" = some "秋AC" := by
  intro a b c s
  refine ⟨?_, fun hs => ?_, by decide⟩
  · cases a <;> cases b <;> cases c <;> simp [check_table, seasonLetters, joinStrs]
  · cases a <;> cases b <;> cases c <;>
      first
      | rfl
      | exact absurd hs (by simp)

/-- C4 witness: the table `[true, false, true]` has a true entry and renders
with Fall to the A,C letters in order. -/
theorem c4_check_table_witness :
    (true = true ∨ false = true ∨ true = true)
    ∧ check_table [true, false, true] "秋" =
        some ("秋" ++ ((if true then "A" else "") ++ (if false then "B" else "") ++
          (if true then "C" else ""))) :=
  ⟨Or.inl rfl, (c4_check_table true false true "秋").2.1 (Or.inl rfl)⟩

/-- C5: parse followed by render is a fixed point on the well-formed clauses
"月1,2" and "月1-3": the enumeration clause marks exactly (Monday, 1) and
(Monday, 2) and renders back to ["月1", "月2"]; the range clause expands the
inclusive range 1-3 to exactly the cells (Monday, 1), (Monday, 2),
(Monday, 3) and renders back to ["月1", "月2", "月3"]. -/
theorem c5_round_trip :
    parse_period_clause "月1,2" =
      .ok ⟨[true, true, false, false, false, false, false, false] ::
        List.replicate 6 (List.replicate 8 false), false, false, false⟩
    ∧ (parse_period_clause "月1,2").map parse_timetable = .ok ["月1", "月2"]
    ∧ parse_period_clause "月1-3" =
      .ok ⟨[true, true, true, false, false, false, false, false] ::
        List.replicate 6 (List.replicate 8 false), false, false, false⟩
    ∧ (parse_period_clause "月1-3").map parse_timetable =
        .ok ["月1", "月2", "月3"] :=
  ⟨rfl, rfl, rfl, rfl⟩

/-- C6: on a table whose grid is the all-false blank grid, `parse_timetable`
returns exactly one token chosen by priority: "集中" if the focus flag is
set, else "応談" if the negotiable flag is set, else "随時" — in particular
a blank grid with only the as-needed flag, and one with no flag at all,
both render to ["随時"]. -/
theorem c6_blank_grid_markers :
    (∀ t : PeriodTable, t.period = create_timetable →
      parse_timetable t =
        [if t.focus then "集中" else if t.negotiable then "応談" else "随時"]
      ∧ (parse_timetable t).length = 1)
    ∧ parse_timetable ⟨create_timetable, false, false, true⟩ = ["随時"]
    ∧ parse_timetable ⟨create_timetable, false, false, false⟩ = ["随時"]
    ∧ parse_timetable ⟨create_timetable, true, true, true⟩ = ["集中"]
    ∧ parse_timetable ⟨create_timetable, false, true, true⟩ = ["応談"] := by
  refine ⟨fun t ht => ?_, by decide, by decide, by decide, by decide⟩
  have heq : parse_timetable t =
      [if t.focus then "集中" else if t.negotiable then "応談" else "随時"] := by
    rw [parse_timetable, if_pos ht]
    cases t.focus <;> cases t.negotiable <;> simp
  exact ⟨heq, by rw [heq]; rfl⟩

/-- C6 witness: a blank grid with only the as-needed flag set renders to a
single token. -/
theorem c6_blank_grid_markers_witness :
    (PeriodTable.mk create_timetable false false true).period = create_timetable
    ∧ parse_timetable ⟨create_timetable, false, false, true⟩ =
        [if (PeriodTable.mk create_timetable false false true).focus then "集中"
         else if (PeriodTable.mk create_timetable false false true).negotiable
           then "応談" else "随時"]
    ∧ (parse_timetable ⟨create_timetable, false, false, true⟩).length = 1 :=
  ⟨rfl, (c6_blank_grid_markers.1 ⟨create_timetable, false, false, true⟩ rfl).1,
    (c6_blank_grid_markers.1 ⟨create_timetable, false, false, true⟩ rfl).2⟩

theorem spanStep_ok_fst (st : List Nat × List (List Bool)) (p : List Char)
    (x : List Nat × List (List Bool)) (h : spanStep st p = .ok x) :
    x.1 = if (spanDays p).length > 0 then spanDays p else st.1 := by
  cases hta : parseTimeArray (timeStr p) with
  | error e =>
    simp only [spanStep, hta] at h
    cases h
  | ok ta =>
    simp only [spanStep, hta] at h
    by_cases hts : (timeStr p).length > 0
    · rw [if_pos hts] at h
      cases hmc : markCells st.2
          (if (spanDays p).length > 0 then spanDays p else st.1) ta with
      | error e =>
        simp only [hmc] at h
        cases h
      | ok grid =>
        simp only [hmc] at h
        cases h
        rfl
    · rw [if_neg hts] at h
      cases h
      rfl

/-- C7: within one clause, a span whose day part yields at least one
recognized weekday replaces the carried day set, a span that yields none
(for example one whose day symbols are all outside the weekday vocabulary,
dropped silently) reuses the most recently seen day set, and the day set
starts empty at the beginning of each clause (so a leading day-less span
marks nothing). -/
theorem c7_day_set_policy :
    (∀ (d : List Nat) (g : List (List Bool)) (p : List Char)
        (x : List Nat × List (List Bool)), spanStep (d, g) p = .ok x →
        x.1 = if spanDays p = [] then d else spanDays p)
    ∧ spanDays "火・X1".data = [1]
    ∧ spanStep ([], create_timetable) "X1".data = .ok ([], create_timetable)
    ∧ (parse_period_clause "1,月2").map parse_timetable = .ok ["月2"]
    ∧ (parse_period_clause "火・X3").map parse_timetable = .ok ["火3"] := by
  refine ⟨?_, by decide, rfl, rfl, rfl⟩
  intro d g p x h
  rw [spanStep_ok_fst (d, g) p x h]
  cases hsd : spanDays p <;> simp

/-- C7 witness: the span "月1" yields the weekday Monday and replaces the
empty carried day set. -/
theorem c7_day_set_policy_witness :
    spanStep ([], create_timetable) "月1".data =
      .ok ([0], [true, false, false, false, false, false, false, false] ::
        List.replicate 6 (List.replicate 8 false))
    ∧ ([0] : List Nat) =
        if spanDays "月1".data = [] then ([] : List Nat)
        else spanDays "月1".data :=
  ⟨rfl, c7_day_set_policy.1 [] create_timetable "月1".data
    ([0], [true, false, false, false, false, false, false, false] ::
      List.replicate 6 (List.replicate 8 false)) rfl⟩

/-- C8: a span whose digit-and-hyphen residue fails integer conversion (a
bare hyphen, "1-", ...) makes the span step fail with that `ValueError`
before any marking, the clause fails, and the whole course's period
conversion fails — no partially filled grid is returned. -/
theorem c8_numeric_format_error :
    (∀ (st : List Nat × List (List Bool)) (p : List Char) (e : PErr),
        parseTimeArray (timeStr p) = .error e → spanStep st p = .error e)
    ∧ parseTimeArray "-".data = .error .valueError
    ∧ parseTimeArray "1-".data = .error .valueError
    ∧ parse_period_clause "月-" = .error .valueError
    ∧ parse_period_clause "月1-" = .error .valueError
    ∧ parse_periods "月1 月2-" = .error .valueError := by
  refine ⟨?_, rfl, rfl, rfl, rfl, rfl⟩
  intro st p e h
  simp [spanStep, h]

/-- C8 witness: the bare-hyphen span aborts with the conversion error. -/
theorem c8_numeric_format_error_witness :
    parseTimeArray (timeStr "-".data) = .error .valueError
    ∧ spanStep ([], create_timetable) "-".data = .error .valueError :=
  ⟨rfl, c8_numeric_format_error.1 ([], create_timetable) "-".data .valueError rfl⟩

/-- C9: grid marking does not validate the period number against the grid
width 8: on a 7×8 grid, marking with a period number of 9 or more fails
with the `IndexError`, while an explicit period number 0 marks the last
column (period 8) through Python index −1; concretely the clause "月9"
aborts the course with the indexing error and "月0" marks cell
(Monday, column 7). -/
theorem c9_grid_width :
    (∀ (g : List (List Bool)) (day n : Nat), g.length = 7 →
        (∀ r ∈ g, r.length = 8) → day < 7 → 9 ≤ n →
        setCell g day ((n : Int) - 1) = .error .indexError)
    ∧ (∀ (g : List (List Bool)) (day : Nat), g.length = 7 →
        (∀ r ∈ g, r.length = 8) → day < 7 →
        setCell g day ((0 : Int) - 1) =
          .ok (g.set day ((g.getD day []).set 7 true))
        ∧ (((g.set day ((g.getD day []).set 7 true)).getD day []).getD 7 false
            = true))
    ∧ parse_period_clause "月9" = .error .indexError
    ∧ (parse_period_clause "月0").map
        (fun t => (t.period.getD 0 []).getD 7 false) = .ok true := by
  refine ⟨?_, ?_, rfl, rfl⟩
  · intro g day n hg7 hr8 hday hn
    have hlt : day < g.length := by rw [hg7]; exact hday
    have hrow : (g.getD day []).length = 8 := by
      rw [List.getD_eq_getElem g [] hlt]
      exact hr8 _ (List.getElem_mem hlt)
    have hps : pySet (g.getD day []) ((n : Int) - 1) = .error .indexError := by
      simp only [pySet, hrow]
      rw [if_neg (by omega : ¬((n : Int) - 1 < 0))]
      rw [if_neg (by push_cast; omega :
        ¬(0 ≤ (n : Int) - 1 ∧ (n : Int) - 1 < ((8 : Nat) : Int)))]
    rw [setCell, hps]
  · intro g day hg7 hr8 hday
    have hlt : day < g.length := by rw [hg7]; exact hday
    have hrow : (g.getD day []).length = 8 := by
      rw [List.getD_eq_getElem g [] hlt]
      exact hr8 _ (List.getElem_mem hlt)
    have hps : pySet (g.getD day []) ((0 : Int) - 1) =
        .ok ((g.getD day []).set 7 true) := by
      simp only [pySet, hrow]
      norm_num
      rfl
    constructor
    · rw [setCell, hps]
    · have hlt2 : day < (g.set day ((g.getD day []).set 7 true)).length := by
        rw [List.length_set]; exact hlt
      rw [List.getD_eq_getElem _ [] hlt2, List.getElem_set_self hlt2]
      have h7 : (7 : Nat) < ((g.getD day []).set 7 true).length := by
        rw [List.length_set, hrow]; omega
      rw [List.getD_eq_getElem _ false h7, List.getElem_set_self h7]

/-- C9 witness: on the fresh 7×8 grid, period 9 on Monday aborts with the
indexing error, and period 0 on Monday marks column 7. -/
theorem c9_grid_width_witness :
    create_timetable.length = 7
    ∧ (∀ r ∈ create_timetable, r.length = 8)
    ∧ (0 : Nat) < 7
    ∧ (9 : Nat) ≤ 9
    ∧ setCell create_timetable 0 ((9 : Int) - 1) = .error .indexError :=
  ⟨by decide, by decide, by decide, by decide,
    c9_grid_width.1 create_timetable 0 9 (by decide) (by decide) (by decide)
      (by decide)⟩

/-- C10: for a table whose grid is not the blank grid, the rendered token
list depends only on the grid — two tables with the same non-blank grid but
different flags render identically — and the marker tokens "集中", "応談",
"随時" never appear in the output. -/
theorem c10_flag_independence :
    ∀ t u : PeriodTable, t.period ≠ create_timetable → t.period = u.period →
      parse_timetable t = parse_timetable u
      ∧ ∀ s ∈ parse_timetable t, s ≠ "集中" ∧ s ≠ "応談" ∧ s ≠ "随時" := by
  intro t u h hp
  have h2 : u.period ≠ create_timetable := by rw [← hp]; exact h
  constructor
  · rw [parse_timetable, parse_timetable, if_neg h, if_neg h2, hp]
  · intro s hs
    rw [parse_timetable, if_neg h] at hs
    simp only [List.mem_flatMap, List.mem_filterMap, List.mem_range] at hs
    obtain ⟨i, hi, j, hj, hcell⟩ := hs
    by_cases hc : (t.period.getD i []).getD j false
    · rw [if_pos hc] at hcell
      have heq : WEEKDAY_LIST.getD i "" ++ toString (j + 1) = s := by
        injection hcell
      subst heq
      interval_cases i <;> interval_cases j <;>
        refine ⟨by decide, by decide, by decide⟩
    · rw [if_neg hc] at hcell
      cases hcell

/-- C10 witness: the grid with only (Monday, period 1) marked renders the
same with all flags false and with all flags true, and its tokens avoid the
three marker strings. -/
theorem c10_flag_independence_witness :
    (PeriodTable.mk
        ([true, false, false, false, false, false, false, false] ::
          List.replicate 6 (List.replicate 8 false)) false false false).period
      ≠ create_timetable
    ∧ (PeriodTable.mk
        ([true, false, false, false, false, false, false, false] ::
          List.replicate 6 (List.replicate 8 false)) false false false).period
      = (PeriodTable.mk
        ([true, false, false, false, false, false, false, false] ::
          List.replicate 6 (List.replicate 8 false)) true true true).period
    ∧ parse_timetable ⟨[true, false, false, false, false, false, false, false] ::
          List.replicate 6 (List.replicate 8 false), false, false, false⟩
      = parse_timetable ⟨[true, false, false, false, false, false, false, false] ::
          List.replicate 6 (List.replicate 8 false), true, true, true⟩
    ∧ ∀ s ∈ parse_timetable ⟨[true, false, false, false, false, false, false,
          false] :: List.replicate 6 (List.replicate 8 false), false, false,
          false⟩, s ≠ "集中" ∧ s ≠ "応談" ∧ s ≠ "随時" :=
  ⟨by decide, rfl,
    (c10_flag_independence
      ⟨[true, false, false, false, false, false, false, false] ::
        List.replicate 6 (List.replicate 8 false), false, false, false⟩
      ⟨[true, false, false, false, false, false, false, false] ::
        List.replicate 6 (List.replicate 8 false), true, true, true⟩
      (by decide) rfl).1,
    (c10_flag_independence
      ⟨[true, false, false, false, false, false, false, false] ::
        List.replicate 6 (List.replicate 8 false), false, false, false⟩
      ⟨[true, false, false, false, false, false, false, false] ::
        List.replicate 6 (List.replicate 8 false), true, true, true⟩
      (by decide) rfl).2⟩
